import Mathlib

/-!
Verification development for the LangLearn backend (FastAPI + document store).

The HTTP route layer (`src/main.py`) and the schema definitions
(`src/schemas.py`) are embedded shallowly below.  The document-store adapter
(`database.py`: the global `db` handle, `create_document`, `get_documents`) is
imported by `main.py` but its source is not part of the repository snapshot,
so it is modelled from the specification's adapter contract (§4.1): `create`
inserts the record as-is, tagging it with a store-generated identifier, and
returns that identifier as a string; `query` returns the documents of the
collection matching an exact-match filter, in insertion order, up to an
optional limit.
-/

/-- A primitive JSON value, as it occurs inside a quiz question's
heterogeneous map (keys id/prompt/options/answer/type: strings, numbers,
and lists of strings for the options). -/
inductive Prim where
  | pNull : Prim
  | pBool (b : Bool) : Prim
  | pInt (n : Int) : Prim
  | pNum (q : Rat) : Prim
  | pStr (s : String) : Prim
  | pStrList (xs : List String) : Prim
deriving DecidableEq, Repr

/-- A quiz question: a heterogeneous map from keys to primitive values. -/
abbrev Question := List (String × Prim)

/-- A JSON/BSON-style value as it occurs in request bodies and stored
documents.  `vOid` is the store-generated ObjectId; `vNull` is Python's
`None` / JSON `null`; `vStrList` is a list of strings (lesson objectives,
collection names); `vDocs` is a list of subdocuments (quiz questions). -/
inductive Value where
  | vNull : Value
  | vBool (b : Bool) : Value
  | vInt (n : Int) : Value
  | vNum (q : Rat) : Value
  | vStr (s : String) : Value
  | vOid (n : Nat) : Value
  | vStrList (xs : List String) : Value
  | vDocs (ds : List Question) : Value
deriving DecidableEq, Repr

/-- A document (Python dict with string keys), as an insertion-ordered
association list. -/
abbrev Doc := List (String × Value)

/-- Dictionary lookup: the value at the first occurrence of a key. -/
def alookup (d : List (String × α)) (k : String) : Option α :=
  match d with
  | [] => none
  | kv :: rest => if kv.1 = k then some kv.2 else alookup rest k

/-- Dictionary assignment `d[k] = v`: replaces the value at an existing key
in place, otherwise appends the new binding at the end (Python dict
semantics). -/
def aset (d : List (String × α)) (k : String) (v : α) : List (String × α) :=
  match d with
  | [] => [(k, v)]
  | kv :: rest => if kv.1 = k then (k, v) :: rest else kv :: aset rest k v

/-- Dictionary deletion `d.pop(k)`: removes the first occurrence of a key. -/
def aremove (d : List (String × α)) (k : String) : List (String × α) :=
  match d with
  | [] => []
  | kv :: rest => if kv.1 = k then rest else kv :: aremove rest k

/-- The keys of a document, in order. -/
def akeys (d : List (String × α)) : List String := d.map Prod.fst

/-- Modelled from the spec: the string form of an ObjectId (`str(ObjectId)`);
an abstract, injective, never-empty rendering of the generated identifier. -/
def oidString (n : Nat) : String := "oid" ++ toString n

/-- Python's `str()` on the values serialization may meet; only the ObjectId
case is exercised by the routes. -/
def pyStr : Value → String
  | .vNull => "None"
  | .vBool b => cond b "True" "False"
  | .vInt n => toString n
  | .vNum q => toString q
  | .vStr s => s
  | .vOid n => oidString n
  | .vStrList _ => "<list>"
  | .vDocs _ => "<list>"

/-- Modelled from the spec: the document store, a mapping from collection
names to insertion-ordered lists of documents, plus the counter generating
fresh ObjectIds. -/
structure Store where
  colls : List (String × List Doc)
  nextId : Nat
deriving DecidableEq, Repr

/-- The documents currently in a named collection (insertion order). -/
def getColl (s : Store) (c : String) : List Doc :=
  (alookup s.colls c).getD []

/-- Modelled from the spec: `create(collectionName, record) -> identifier`.
Inserts the record as-is into the collection, tagged with a fresh
store-generated identifier, and returns that identifier's string form. -/
def create_document (s : Store) (c : String) (doc : Doc) : String × Store :=
  let stored : Doc := ("_id", Value.vOid s.nextId) :: doc
  (oidString s.nextId,
   { colls := aset s.colls c (getColl s c ++ [stored]), nextId := s.nextId + 1 })

/-- A document matches an exact-match filter when every filter entry equals
the document's value at that key. -/
def matchesFilter (q : Doc) (d : Doc) : Bool :=
  q.all fun kv => decide (alookup d kv.1 = some kv.2)

/-- Modelled from the spec: `query(collectionName, filter, limit)`.  Returns
the collection's documents matching the exact-match filter, in insertion
order, up to the optional limit. -/
def get_documents (s : Store) (c : String) (q : Doc) (limit : Option Nat) : List Doc :=
  let ds := (getColl s c).filter (matchesFilter q)
  match limit with
  | none => ds
  | some n => ds.take n

/-- Embeds `serialize` (src/main.py lines 64-70): on a non-empty document,
pops `_id` and writes its string form under the key `id`. -/
def serialize (doc : Doc) : Doc :=
  if doc = [] then doc
  else
    match alookup doc "_id" with
    | some v => aset (aremove doc "_id") "id" (Value.vStr (pyStr v))
    | none => doc

/-- Embeds the `Lesson` schema (src/schemas.py lines 11-16). -/
structure Lesson where
  language : String
  title : String
  level : String
  content : String
  objectives : List String
deriving DecidableEq, Repr

/-- Embeds the `Quiz` schema (src/schemas.py lines 18-23); each question is a
heterogeneous map. -/
structure Quiz where
  lesson_id : String
  questions : List Question
deriving DecidableEq, Repr

/-- Embeds the `Flashcard` schema (src/schemas.py lines 25-29). -/
structure Flashcard where
  language : String
  term : String
  definition : String
  «example» : Option String
deriving DecidableEq, Repr

/-- The pydantic dump of a Lesson payload: every schema field present. -/
def lessonToDoc (p : Lesson) : Doc :=
  [("language", .vStr p.language), ("title", .vStr p.title),
   ("level", .vStr p.level), ("content", .vStr p.content),
   ("objectives", .vStrList p.objectives)]

/-- The pydantic dump of a Quiz payload. -/
def quizToDoc (p : Quiz) : Doc :=
  [("lesson_id", .vStr p.lesson_id),
   ("questions", .vDocs p.questions)]

/-- The pydantic dump of a Flashcard payload; an absent optional field dumps
as `null`. -/
def flashcardToDoc (p : Flashcard) : Doc :=
  [("language", .vStr p.language), ("term", .vStr p.term),
   ("definition", .vStr p.definition),
   ("example", match p.«example» with | some s => .vStr s | none => .vNull)]

/-- A list route's `{"items": [...]}` response body. -/
structure ListResp where
  items : List Doc
deriving DecidableEq, Repr

/-- The exact-match filter entry contributed by one optional string query
parameter: Python tests the parameter's TRUTHINESS (`if language:`), so both
an absent parameter and an empty string contribute nothing. -/
def optFilter (k : String) (v : Option String) : Doc :=
  match v with
  | some s => if s = "" then [] else [(k, .vStr s)]
  | none => []

/-- Embeds `list_lessons` (src/main.py lines 112-120). -/
def list_lessons (language level : Option String) (s : Store) : ListResp :=
  let q : Doc := optFilter "language" language ++ optFilter "level" level
  { items := (get_documents s "lesson" q none).map serialize }

/-- Embeds `create_lesson` (src/main.py lines 122-125). -/
def create_lesson (payload : Lesson) (s : Store) : Doc × Store :=
  let r := create_document s "lesson" (lessonToDoc payload)
  ([("id", .vStr r.1)], r.2)

/-- Embeds `list_quizzes` (src/main.py lines 128-134). -/
def list_quizzes (lesson_id : Option String) (s : Store) : ListResp :=
  let q : Doc := optFilter "lesson_id" lesson_id
  { items := (get_documents s "quiz" q none).map serialize }

/-- Embeds `create_quiz` (src/main.py lines 136-139). -/
def create_quiz (payload : Quiz) (s : Store) : Doc × Store :=
  let r := create_document s "quiz" (quizToDoc payload)
  ([("id", .vStr r.1)], r.2)

/-- The default of the `limit` query parameter of the flashcard listing. -/
def flashcardsDefaultLimit : Nat := 50

/-- Embeds `list_flashcards` (src/main.py lines 142-148): the only list route
that passes a limit to the store query. -/
def list_flashcards (language : Option String) (limit : Nat) (s : Store) : ListResp :=
  let q : Doc := optFilter "language" language
  { items := (get_documents s "flashcard" q (some limit)).map serialize }

/-- Embeds `create_flashcard` (src/main.py lines 150-153). -/
def create_flashcard (payload : Flashcard) (s : Store) : Doc × Store :=
  let r := create_document s "flashcard" (flashcardToDoc payload)
  ([("id", .vStr r.1)], r.2)

/-- Embeds `get_progress` (src/main.py lines 156-159): queries with limit 1
and falls back to the synthetic default snapshot. -/
def get_progress (user_id : String) (s : Store) : Doc :=
  let items := (get_documents s "progress" [("user_id", .vStr user_id)] (some 1)).map serialize
  match items with
  | d :: _ => d
  | [] => [("user_id", .vStr user_id), ("streak_days", .vInt 0), ("completed", .vBool false)]

/-- Embeds `ProgressUpdate` (src/main.py lines 161-167). -/
structure ProgressUpdate where
  user_id : String
  lesson_id : Option String
  quiz_score : Option Rat
  completed : Option Bool
  streak_days : Option Int
  studied_flashcards : Option Int
deriving DecidableEq, Repr

/-- `payload.model_dump()`: all six fields, in declaration order, absent
optional fields as `None`. -/
def progressDump (p : ProgressUpdate) : List (String × Option Value) :=
  [("user_id", some (.vStr p.user_id)),
   ("lesson_id", p.lesson_id.map .vStr),
   ("quiz_score", p.quiz_score.map .vNum),
   ("completed", p.completed.map .vBool),
   ("streak_days", p.streak_days.map .vInt),
   ("studied_flashcards", p.studied_flashcards.map .vInt)]

/-- Embeds `update_progress` (src/main.py lines 169-174): strips fields equal
to `None` from the dump and inserts the remainder as a new document. -/
def update_progress (payload : ProgressUpdate) (s : Store) : Doc × Store :=
  let data : Doc := (progressDump payload).filterMap fun kv => kv.2.map ((kv.1, ·))
  let r := create_document s "progress" data
  ([("id", .vStr r.1)], r.2)

/-- An HTTP error response (FastAPI `HTTPException` / validation error). -/
structure HTTPError where
  status : Nat
  detail : String
deriving DecidableEq, Repr

/-- Pydantic validation of one required string field: it must be present and
be a string. -/
def reqStr (body : Doc) (k : String) : Except String String :=
  match alookup body k with
  | some (.vStr s) => .ok s
  | some _ => .error (k ++ ": input should be a valid string")
  | none => .error (k ++ ": field required")

/-- Pydantic validation of the optional list-of-strings field `objectives`
(default `[]`). -/
def optStrList (body : Doc) (k : String) : Except String (List String) :=
  match alookup body k with
  | some (.vStrList xs) => .ok xs
  | some _ => .error (k ++ ": input should be a valid list")
  | none => .ok []

/-- Pydantic validation of an incoming `Lesson` body (src/schemas.py lines
11-16): all of language/title/level/content required strings, objectives an
optional list of strings defaulting to `[]`. -/
def validateLesson (body : Doc) : Except String Lesson := do
  let language ← reqStr body "language"
  let title ← reqStr body "title"
  let level ← reqStr body "level"
  let content ← reqStr body "content"
  let objectives ← optStrList body "objectives"
  pure ⟨language, title, level, content, objectives⟩

/-- The HTTP layer around `create_lesson`: FastAPI validates the raw body
against the `Lesson` schema before the handler runs; a validation failure is
answered with a 422 client error and the handler never executes. -/
def post_lessons_route (body : Doc) (s : Store) : Except HTTPError Doc × Store :=
  match validateLesson body with
  | .error msg => (.error ⟨422, msg⟩, s)
  | .ok payload =>
      let r := create_lesson payload s
      (.ok r.1, r.2)

deriving instance DecidableEq for Except

/-- Modelled from the spec: the process-wide database handle of the missing
`database.py`, as seen by `main.py`: the store it fronts, an optional `name`
attribute, and the outcome (value or raised fault) of
`list_collection_names()`. -/
structure DBConn where
  store : Store
  dbName : Option String
  collNamesResult : Except String (List String)
deriving DecidableEq, Repr

/-- Modelled from the spec: the process environment and connection state the
routes observe: `db` is `None` when no store connection was established,
`databaseUrl` is `os.getenv("DATABASE_URL")`. -/
structure AppState where
  db : Option DBConn
  databaseUrl : Option String
deriving DecidableEq, Repr

/-- Truthiness of `os.getenv` results: `None` and the empty string are
falsy. -/
def truthyOpt : Option String → Bool
  | none => false
  | some s => s ≠ ""

/-- The initial response dictionary of `test_database` (src/main.py lines
37-44). -/
def testBase : Doc :=
  [("backend", .vStr "✅ Running"),
   ("database", .vStr "❌ Not Available"),
   ("database_url", .vStr "❌ Not Set"),
   ("database_name", .vStr "❌ Not Set"),
   ("connection_status", .vStr "Not Connected"),
   ("collections", .vStrList [])]

/-- Embeds `test_database` (src/main.py lines 35-60).  Every store fault is
caught inside the handler and rendered into the `database` status string, so
the route always answers `ok`; the `Except` is shared with the mutating
routes, which do answer errors. -/
def test_database (st : AppState) : Except HTTPError Doc :=
  match st.db with
  | none =>
      .ok (aset testBase "database" (.vStr "⚠️  Available but not initialized"))
  | some conn =>
      let r := aset testBase "database" (.vStr "✅ Available")
      let r := aset r "database_url"
        (.vStr (if truthyOpt st.databaseUrl then "✅ Set" else "❌ Not Set"))
      let r := aset r "database_name"
        (.vStr (match conn.dbName with | some n => n | none => "✅ Connected"))
      let r := aset r "connection_status" (.vStr "Connected")
      match conn.collNamesResult with
      | .ok ls =>
          .ok (aset (aset r "collections" (.vStrList (ls.take 10)))
                "database" (.vStr "✅ Connected & Working"))
      | .error e =>
          .ok (aset r "database" (.vStr ("⚠️  Connected but Error: " ++ e.take 50)))

/-- The two demo lessons of `seed_demo` (src/main.py lines 80-95). -/
def seedLessons : List Doc :=
  [[("language", .vStr "Spanish"),
    ("title", .vStr "Basics: Greetings"),
    ("level", .vStr "A1"),
    ("content", .vStr "Hola, ¿cómo estás? Learn common greetings and introductions."),
    ("objectives", .vStrList ["Greet someone", "Introduce yourself", "Say goodbye"])],
   [("language", .vStr "French"),
    ("title", .vStr "Basics: Numbers"),
    ("level", .vStr "A1"),
    ("content", .vStr "Un, deux, trois... Learn numbers 1-20 with pronunciation tips."),
    ("objectives", .vStrList ["Count to 20", "Ask and tell age"])]]

/-- The three demo flashcards of `seed_demo` (src/main.py lines 100-104). -/
def seedFlashcards : List Doc :=
  [[("language", .vStr "Spanish"), ("term", .vStr "Hola"),
    ("definition", .vStr "Hello"), ("example", .vStr "Hola, Juan!")],
   [("language", .vStr "Spanish"), ("term", .vStr "Adiós"),
    ("definition", .vStr "Goodbye"), ("example", .vStr "Adiós, hasta mañana.")],
   [("language", .vStr "French"), ("term", .vStr "Merci"),
    ("definition", .vStr "Thank you"), ("example", .vStr "Merci beaucoup!")]]

/-- The `for ... in ...: create_document(...)` loops of `seed_demo`. -/
def insertDocs (s : Store) (c : String) (ds : List Doc) : Store :=
  ds.foldl (fun s d => (create_document s c d).2) s

/-- The store mutation performed by `seed_demo` (src/main.py lines 79-106):
each of the lesson and flashcard collections receives its fixed demo records
exactly when it is currently empty (`count_documents({}) == 0`). -/
def seedStore (s : Store) : Store :=
  let s1 := if (getColl s "lesson").length = 0 then insertDocs s "lesson" seedLessons else s
  if (getColl s1 "flashcard").length = 0 then insertDocs s1 "flashcard" seedFlashcards else s1

/-- Embeds `seed_demo` (src/main.py lines 73-109): 500 when `db is None`,
otherwise seeds and answers `{"status": "ok"}`. -/
def seed_demo (st : AppState) : (Except HTTPError Doc) × AppState :=
  match st.db with
  | none => (.error ⟨500, "Database not available"⟩, st)
  | some conn =>
      (.ok [("status", .vStr "ok")],
       { db := some { conn with store := seedStore conn.store },
         databaseUrl := st.databaseUrl })

theorem alookup_aset_self (d : List (String × α)) (k : String) (v : α) :
    alookup (aset d k v) k = some v := by
  induction d with
  | nil => simp [aset, alookup]
  | cons kv rest ih =>
      by_cases h : kv.1 = k
      · simp [aset, h, alookup]
      · simp [aset, h, alookup, ih]

theorem alookup_aset_ne (d : List (String × α)) {k k' : String} (v : α) (h : k' ≠ k) :
    alookup (aset d k v) k' = alookup d k' := by
  have hk' : ¬ (k = k') := Ne.symm h
  induction d with
  | nil => simp [aset, alookup, hk']
  | cons kv rest ih =>
      by_cases hk : kv.1 = k
      · have hkk' : ¬ (kv.1 = k') := by rw [hk]; exact hk'
        simp [aset, hk, alookup, hk', hkk']
      · simp only [aset, hk, if_false, alookup]
        split
        · rfl
        · exact ih

theorem alookup_aremove_ne (d : List (String × α)) {k k' : String} (h : k' ≠ k) :
    alookup (aremove d k) k' = alookup d k' := by
  induction d with
  | nil => simp [aremove]
  | cons kv rest ih =>
      by_cases hk : kv.1 = k
      · have hkk' : ¬ (kv.1 = k') := by rw [hk]; exact Ne.symm h
        simp only [aremove, alookup, if_pos hk, if_neg hkk']
      · simp only [aremove, hk, if_false, alookup]
        split
        · rfl
        · exact ih

theorem alookup_eq_none_of_not_mem_keys (d : List (String × α)) (k : String)
    (h : k ∉ akeys d) : alookup d k = none := by
  induction d with
  | nil => rfl
  | cons kv rest ih =>
      simp only [akeys, List.map_cons, List.mem_cons, not_or] at h
      have h1 : ¬ (kv.1 = k) := fun hh => h.1 hh.symm
      simp only [alookup, h1, if_false]
      exact ih h.2

theorem alookup_aremove_self (d : List (String × α)) (k : String)
    (h : (akeys d).Nodup) : alookup (aremove d k) k = none := by
  induction d with
  | nil => rfl
  | cons kv rest ih =>
      simp only [akeys, List.map_cons, List.nodup_cons] at h
      by_cases hk : kv.1 = k
      · subst hk
        simpa [aremove] using alookup_eq_none_of_not_mem_keys rest kv.1 h.1
      · simp only [aremove, hk, if_false, alookup]
        exact ih h.2

theorem alookup_serialize_of_ne (d : Doc) (k : String)
    (h1 : k ≠ "_id") (h2 : k ≠ "id") : alookup (serialize d) k = alookup d k := by
  unfold serialize
  split
  · rfl
  · split
    · rw [alookup_aset_ne _ _ h2, alookup_aremove_ne _ h1]
    · rfl

theorem alookup_serialize_id (d : Doc) {v : Value} (h : alookup d "_id" = some v) :
    alookup (serialize d) "id" = some (.vStr (pyStr v)) := by
  have hne : d ≠ [] := by rintro rfl; simp [alookup] at h
  unfold serialize
  rw [if_neg hne, h]
  exact alookup_aset_self _ _ _

theorem alookup_serialize_oid (d : Doc) {v : Value} (h : alookup d "_id" = some v)
    (hn : (akeys d).Nodup) : alookup (serialize d) "_id" = none := by
  have hne : d ≠ [] := by rintro rfl; simp [alookup] at h
  unfold serialize
  rw [if_neg hne, h]
  rw [alookup_aset_ne _ _ (by decide : ("_id" : String) ≠ "id")]
  exact alookup_aremove_self _ _ hn

theorem getColl_create_self (s : Store) (c : String) (d : Doc) :
    getColl (create_document s c d).2 c
      = getColl s c ++ [("_id", Value.vOid s.nextId) :: d] := by
  simp [create_document, getColl, alookup_aset_self]

theorem getColl_create_ne (s : Store) {c c' : String} (d : Doc) (h : c' ≠ c) :
    getColl (create_document s c d).2 c' = getColl s c' := by
  simp [create_document, getColl, alookup_aset_ne _ _ h]

theorem getColl_insertDocs_ne (s : Store) {c c' : String} (ds : List Doc) (h : c' ≠ c) :
    getColl (insertDocs s c ds) c' = getColl s c' := by
  induction ds generalizing s with
  | nil => rfl
  | cons d t ih => simpa [insertDocs] using (ih _).trans (getColl_create_ne s d h)

theorem length_getColl_insertDocs (s : Store) (c : String) (ds : List Doc) :
    (getColl (insertDocs s c ds) c).length = (getColl s c).length + ds.length := by
  induction ds generalizing s with
  | nil => rfl
  | cons d t ih =>
      simp only [insertDocs, List.foldl_cons] at *
      rw [ih, getColl_create_self]
      simp
      omega

theorem matchesFilter_nil (d : Doc) : matchesFilter [] d = true := rfl

theorem filter_matchesFilter_nil (l : List Doc) : l.filter (matchesFilter []) = l := by
  induction l with
  | nil => rfl
  | cons d t ih => simp [List.filter, matchesFilter_nil, ih]

theorem matchesFilter_singleton {k : String} {v : Value} {d : Doc} :
    matchesFilter [(k, v)] d = true ↔ alookup d k = some v := by
  simp [matchesFilter]

/-- A serialized record exhibits the five Lesson payload fields. -/
def lessonMatches (p : Lesson) (d : Doc) : Bool :=
  decide (alookup d "language" = some (.vStr p.language)) &&
  decide (alookup d "title" = some (.vStr p.title)) &&
  decide (alookup d "level" = some (.vStr p.level)) &&
  decide (alookup d "content" = some (.vStr p.content)) &&
  decide (alookup d "objectives" = some (.vStrList p.objectives))

/-- A serialized record exhibits the two Quiz payload fields. -/
def quizMatches (p : Quiz) (d : Doc) : Bool :=
  decide (alookup d "lesson_id" = some (.vStr p.lesson_id)) &&
  decide (alookup d "questions" = some (.vDocs p.questions))

/-- A serialized record exhibits the four Flashcard payload fields. -/
def flashcardMatches (p : Flashcard) (d : Doc) : Bool :=
  decide (alookup d "language" = some (.vStr p.language)) &&
  decide (alookup d "term" = some (.vStr p.term)) &&
  decide (alookup d "definition" = some (.vStr p.definition)) &&
  decide (alookup d "example" = some (match p.«example» with
    | some s => .vStr s | none => .vNull))

theorem lessonMatches_serialize (p : Lesson) (d : Doc) :
    lessonMatches p (serialize d) = lessonMatches p d := by
  unfold lessonMatches
  rw [alookup_serialize_of_ne d "language" (by decide) (by decide),
      alookup_serialize_of_ne d "title" (by decide) (by decide),
      alookup_serialize_of_ne d "level" (by decide) (by decide),
      alookup_serialize_of_ne d "content" (by decide) (by decide),
      alookup_serialize_of_ne d "objectives" (by decide) (by decide)]

theorem quizMatches_serialize (p : Quiz) (d : Doc) :
    quizMatches p (serialize d) = quizMatches p d := by
  unfold quizMatches
  rw [alookup_serialize_of_ne d "lesson_id" (by decide) (by decide),
      alookup_serialize_of_ne d "questions" (by decide) (by decide)]

theorem flashcardMatches_serialize (p : Flashcard) (d : Doc) :
    flashcardMatches p (serialize d) = flashcardMatches p d := by
  unfold flashcardMatches
  rw [alookup_serialize_of_ne d "language" (by decide) (by decide),
      alookup_serialize_of_ne d "term" (by decide) (by decide),
      alookup_serialize_of_ne d "definition" (by decide) (by decide),
      alookup_serialize_of_ne d "example" (by decide) (by decide)]

theorem lessonMatches_stored (p : Lesson) (v : Value) :
    lessonMatches p (("_id", v) :: lessonToDoc p) = true := by
  simp [lessonMatches, lessonToDoc, alookup]

theorem quizMatches_stored (p : Quiz) (v : Value) :
    quizMatches p (("_id", v) :: quizToDoc p) = true := by
  simp [quizMatches, quizToDoc, alookup]

theorem flashcardMatches_stored (p : Flashcard) (v : Value) :
    flashcardMatches p (("_id", v) :: flashcardToDoc p) = true := by
  simp [flashcardMatches, flashcardToDoc, alookup]

theorem filter_map_serialize (l : List Doc) (p : Doc → Bool)
    (hp : ∀ d, p (serialize d) = p d) :
    (l.map serialize).filter p = (l.filter p).map serialize := by
  induction l with
  | nil => rfl
  | cons d t ih =>
      by_cases h : p d
      · simp [List.filter, hp, h, ih]
      · simp [List.filter, hp, h, ih]

theorem mem_items_filtered {l : List Doc} {q : Doc} {d : Doc}
    (h : d ∈ (l.filter (matchesFilter q)).map serialize) :
    ∃ d₀, d = serialize d₀ ∧ matchesFilter q d₀ = true := by
  obtain ⟨d₀, hmem, hser⟩ := List.mem_map.1 h
  exact ⟨d₀, hser.symm, (List.mem_filter.1 hmem).2⟩

theorem matchesFilter_head {k : String} {v : Value} {rest : Doc} {d : Doc}
    (h : matchesFilter ((k, v) :: rest) d = true) : alookup d k = some v := by
  simp [matchesFilter] at h
  exact h.1

theorem optFilter_some_ne (k s' : String) (h : ¬ (s' = "")) :
    optFilter k (some s') = [(k, .vStr s')] := by
  simp [optFilter, h]

theorem mem_items_filtered_take {l : List Doc} {q : Doc} {n : Nat} {d : Doc}
    (h : d ∈ ((l.filter (matchesFilter q)).take n).map serialize) :
    ∃ d₀, d = serialize d₀ ∧ matchesFilter q d₀ = true := by
  obtain ⟨d₀, hmem, hser⟩ := List.mem_map.1 h
  exact ⟨d₀, hser.symm, (List.mem_filter.1 (List.take_subset n _ hmem)).2⟩

/-- Claim C2: for every population of stored records with mixed `language`
values, a list request with query parameter `language="Spanish"` returns only
records whose `language` field equals `"Spanish"` (lesson listing for any
`level` parameter; flashcard listing for any `limit`). -/
theorem C2_language_filter_sound :
    (∀ (lv : Option String) (s : Store) (d : Doc),
        d ∈ (list_lessons (some "Spanish") lv s).items →
        alookup d "language" = some (Value.vStr "Spanish"))
  ∧ (∀ (n : Nat) (s : Store) (d : Doc),
        d ∈ (list_flashcards (some "Spanish") n s).items →
        alookup d "language" = some (Value.vStr "Spanish")) := by
  constructor
  · intro lv s d hd
    simp only [list_lessons, get_documents,
      optFilter_some_ne "language" "Spanish" (by decide), List.cons_append,
      List.nil_append] at hd
    obtain ⟨d₀, rfl, hmatch⟩ := mem_items_filtered hd
    rw [alookup_serialize_of_ne d₀ "language" (by decide) (by decide)]
    exact matchesFilter_head hmatch
  · intro n s d hd
    simp only [list_flashcards, get_documents,
      optFilter_some_ne "language" "Spanish" (by decide)] at hd
    obtain ⟨d₀, rfl, hmatch⟩ := mem_items_filtered_take hd
    rw [alookup_serialize_of_ne d₀ "language" (by decide) (by decide)]
    exact matchesFilter_head hmatch

/-- Witness fixture: one Spanish lesson created into an empty store. -/
def wLesson : Lesson := ⟨"Spanish", "T", "A1", "C", []⟩

/-- Witness fixture: one Spanish flashcard created into an empty store. -/
def wFlashcard : Flashcard := ⟨"Spanish", "Hola", "Hello", none⟩

/-- Witness for C2 at concrete stores holding one Spanish record each. -/
theorem C2_language_filter_sound_witness :
    (lessonToDoc wLesson ++ [("id", Value.vStr (oidString 0))])
        ∈ (list_lessons (some "Spanish") none (create_lesson wLesson ⟨[], 0⟩).2).items
    ∧ alookup (lessonToDoc wLesson ++ [("id", Value.vStr (oidString 0))]) "language"
        = some (Value.vStr "Spanish")
    ∧ (flashcardToDoc wFlashcard ++ [("id", Value.vStr (oidString 0))])
        ∈ (list_flashcards (some "Spanish") 50 (create_flashcard wFlashcard ⟨[], 0⟩).2).items
    ∧ alookup (flashcardToDoc wFlashcard ++ [("id", Value.vStr (oidString 0))]) "language"
        = some (Value.vStr "Spanish") :=
  ⟨by decide,
   C2_language_filter_sound.1 none (create_lesson wLesson ⟨[], 0⟩).2 _ (by decide),
   by decide,
   C2_language_filter_sound.2 50 (create_flashcard wFlashcard ⟨[], 0⟩).2 _ (by decide)⟩

/-- Claim C4: for every user_id with no stored Progress document matching it,
GET /progress/{user_id} returns exactly the synthetic default snapshot
rather than a not-found error. -/
theorem C4_missing_progress_default (uid : String) (s : Store)
    (h : ∀ d ∈ getColl s "progress", alookup d "user_id" ≠ some (Value.vStr uid)) :
    get_progress uid s
      = [("user_id", Value.vStr uid), ("streak_days", Value.vInt 0),
         ("completed", Value.vBool false)] := by
  have hf : (getColl s "progress").filter
      (matchesFilter [("user_id", Value.vStr uid)]) = [] := by
    rw [List.filter_eq_nil_iff]
    intro d hd
    simp only [matchesFilter_singleton]
    exact h d hd
  simp [get_progress, get_documents, hf]

/-- Witness for C4 at the empty store. -/
theorem C4_missing_progress_default_witness :
    (∀ d ∈ getColl ⟨[], 0⟩ "progress",
        alookup d "user_id" ≠ some (Value.vStr "u0"))
    ∧ get_progress "u0" ⟨[], 0⟩
      = [("user_id", Value.vStr "u0"), ("streak_days", Value.vInt 0),
         ("completed", Value.vBool false)] :=
  ⟨by simp [getColl, alookup],
   C4_missing_progress_default "u0" ⟨[], 0⟩ (by simp [getColl, alookup])⟩

/-- Claim C8: serialization renames the store identifier `_id` to a string
`id` and leaves every other field unchanged (on dictionaries, whose keys are
distinct). -/
theorem C8_serialize_renames_id (d : Doc) (hnd : (akeys d).Nodup) :
    (∀ k, k ≠ "_id" → k ≠ "id" → alookup (serialize d) k = alookup d k)
  ∧ (∀ v, alookup d "_id" = some v →
      alookup (serialize d) "id" = some (Value.vStr (pyStr v))
      ∧ alookup (serialize d) "_id" = none) :=
  ⟨fun k h1 h2 => alookup_serialize_of_ne d k h1 h2,
   fun _ hv => ⟨alookup_serialize_id d hv, alookup_serialize_oid d hv hnd⟩⟩

/-- Witness fixture for C8: a stored document with an ObjectId and one data
field. -/
def wDocC8 : Doc := [("_id", Value.vOid 7), ("lang", Value.vStr "x")]

/-- Witness for C8 at a concrete stored document. -/
theorem C8_serialize_renames_id_witness :
    (akeys wDocC8).Nodup
    ∧ alookup (serialize wDocC8) "lang" = alookup wDocC8 "lang"
    ∧ alookup (serialize wDocC8) "id" = some (Value.vStr (pyStr (Value.vOid 7)))
    ∧ alookup (serialize wDocC8) "_id" = none :=
  ⟨by decide,
   (C8_serialize_renames_id wDocC8 (by decide)).1 "lang" (by decide) (by decide),
   ((C8_serialize_renames_id wDocC8 (by decide)).2 (Value.vOid 7) (by decide)).1,
   ((C8_serialize_renames_id wDocC8 (by decide)).2 (Value.vOid 7) (by decide)).2⟩

/-- Claim C9: among the list routes only the flashcard listing passes a limit
to the store query (default 50): the lesson and quiz listings return every
matching record however many there are, the flashcard listing at its default
truncates to 50, and GET /progress/{user_id} depends only on the first
matching snapshot (limit 1). -/
theorem C9_limits :
    flashcardsDefaultLimit = 50
  ∧ (∀ s : Store, (list_lessons none none s).items.length = (getColl s "lesson").length)
  ∧ (∀ s : Store, (list_quizzes none s).items.length = (getColl s "quiz").length)
  ∧ (∀ (s : Store) (lang : Option String),
      (list_flashcards lang flashcardsDefaultLimit s).items.length
        = min flashcardsDefaultLimit
            ((getColl s "flashcard").filter
              (matchesFilter (optFilter "language" lang))).length)
  ∧ (∀ (s : Store) (uid : String),
      get_progress uid s
        = match (getColl s "progress").filter
            (matchesFilter [("user_id", Value.vStr uid)]) with
          | [] => [("user_id", Value.vStr uid), ("streak_days", Value.vInt 0),
                   ("completed", Value.vBool false)]
          | d :: _ => serialize d) := by
  refine ⟨rfl, fun s => ?_, fun s => ?_, fun s lang => ?_, fun s uid => ?_⟩
  · simp [list_lessons, optFilter, get_documents, filter_matchesFilter_nil]
  · simp [list_quizzes, optFilter, get_documents, filter_matchesFilter_nil]
  · simp [list_flashcards, get_documents, List.length_take]
  · unfold get_progress get_documents
    cases hf : (getColl s "progress").filter
        (matchesFilter [("user_id", Value.vStr uid)]) with
    | nil => simp [hf]
    | cons d t => simp [hf]

/-- Claim C10: a string query parameter supplied as the empty string is
treated the same as an absent parameter (the routes test truthiness, not
presence), so e.g. GET /lessons?language= returns all records. -/
theorem C10_empty_param_as_absent :
    (∀ (s : Store) (lv : Option String),
        list_lessons (some "") lv s = list_lessons none lv s)
  ∧ (∀ (s : Store) (lg : Option String),
        list_lessons lg (some "") s = list_lessons lg none s)
  ∧ (∀ s : Store, list_quizzes (some "") s = list_quizzes none s)
  ∧ (∀ (s : Store) (n : Nat),
        list_flashcards (some "") n s = list_flashcards none n s)
  ∧ (∀ s : Store,
        (list_lessons (some "") none s).items = (getColl s "lesson").map serialize) := by
  refine ⟨fun s lv => rfl, fun s lg => rfl, fun s => rfl, fun s n => rfl, fun s => ?_⟩
  simp [list_lessons, optFilter, get_documents, filter_matchesFilter_nil]

theorem aset_eq_append (d : List (String × α)) (k : String) (v : α)
    (h : k ∉ akeys d) : aset d k v = d ++ [(k, v)] := by
  induction d with
  | nil => rfl
  | cons kv rest ih =>
      simp only [akeys, List.map_cons, List.mem_cons, not_or] at h
      have h1 : ¬ (kv.1 = k) := fun hh => h.1 hh.symm
      simp only [aset, h1, if_false, List.cons_append, List.cons.injEq, true_and]
      exact ih (by simpa [akeys] using h.2)

theorem serialize_stored (doc : Doc) (n : Nat) (h : "id" ∉ akeys doc) :
    serialize (("_id", Value.vOid n) :: doc)
      = doc ++ [("id", Value.vStr (oidString n))] := by
  have hne : (("_id", Value.vOid n) :: doc) ≠ [] := by simp
  unfold serialize
  rw [if_neg hne]
  have hl : alookup (("_id", Value.vOid n) :: doc) "_id" = some (Value.vOid n) := by
    simp [alookup]
  rw [hl]
  have hr : aremove (("_id", Value.vOid n) :: doc) "_id" = doc := by
    simp [aremove]
  rw [hr]
  show aset doc "id" (Value.vStr (pyStr (Value.vOid n))) = _
  rw [aset_eq_append doc "id" _ h]
  rfl

theorem oidString_ne_empty (n : Nat) : oidString n ≠ "" := by
  intro h
  have hlen := congrArg String.length h
  rw [oidString, String.length_append] at hlen
  have h3 : ("oid" : String).length = 3 := rfl
  have h0 : ("" : String).length = 0 := rfl
  omega

theorem akeys_lessonToDoc (p : Lesson) :
    akeys (lessonToDoc p) = ["language", "title", "level", "content", "objectives"] := rfl

theorem akeys_quizToDoc (p : Quiz) :
    akeys (quizToDoc p) = ["lesson_id", "questions"] := rfl

theorem akeys_flashcardToDoc (p : Flashcard) :
    akeys (flashcardToDoc p) = ["language", "term", "definition", "example"] := rfl

/-- Claim C1 counterexample: creating the same valid Lesson payload twice
(duplicates are permitted) and then listing without filters yields TWO
records whose fields match the submitted payload, not exactly one. -/
theorem C1_create_then_list_counterexample :
    ¬ ((list_lessons none none
          (create_lesson wLesson (create_lesson wLesson ⟨[], 0⟩).2).2).items.filter
         (lessonMatches wLesson)).length = 1 := by decide

/-- Claim C1 as amended: if no record already stored in the collection
matches the payload (and, for flashcards, the collection holds fewer records
than the default listing limit of 50), then create followed by an unfiltered
list yields exactly one record matching the submitted payload, namely the
payload's fields together with the non-empty string `id` of the new
record. -/
theorem C1_create_then_list :
    (∀ (p : Lesson) (s : Store),
        (getColl s "lesson").filter (lessonMatches p) = [] →
        (list_lessons none none (create_lesson p s).2).items.filter (lessonMatches p)
          = [lessonToDoc p ++ [("id", Value.vStr (oidString s.nextId))]]
        ∧ oidString s.nextId ≠ "")
  ∧ (∀ (p : Quiz) (s : Store),
        (getColl s "quiz").filter (quizMatches p) = [] →
        (list_quizzes none (create_quiz p s).2).items.filter (quizMatches p)
          = [quizToDoc p ++ [("id", Value.vStr (oidString s.nextId))]]
        ∧ oidString s.nextId ≠ "")
  ∧ (∀ (p : Flashcard) (s : Store),
        (getColl s "flashcard").filter (flashcardMatches p) = [] →
        (getColl s "flashcard").length < flashcardsDefaultLimit →
        (list_flashcards none flashcardsDefaultLimit (create_flashcard p s).2).items.filter
            (flashcardMatches p)
          = [flashcardToDoc p ++ [("id", Value.vStr (oidString s.nextId))]]
        ∧ oidString s.nextId ≠ "") := by
  refine ⟨fun p s h => ⟨?_, oidString_ne_empty _⟩,
          fun p s h => ⟨?_, oidString_ne_empty _⟩,
          fun p s h hlen => ⟨?_, oidString_ne_empty _⟩⟩
  · have hitems : (list_lessons none none (create_lesson p s).2).items
        = ((getColl s "lesson" ++ [("_id", Value.vOid s.nextId) :: lessonToDoc p]).map
            serialize) := by
      show ((get_documents (create_document s "lesson" (lessonToDoc p)).2 "lesson"
              ([] ++ []) none).map serialize) = _
      rw [List.nil_append]
      show (((getColl (create_document s "lesson" (lessonToDoc p)).2 "lesson").filter
              (matchesFilter [])).map serialize) = _
      rw [filter_matchesFilter_nil, getColl_create_self]
    rw [hitems, filter_map_serialize _ _ (lessonMatches_serialize p),
        List.filter_append, h, List.nil_append]
    have hm : (lessonMatches p) (("_id", Value.vOid s.nextId) :: lessonToDoc p) = true :=
      lessonMatches_stored p _
    rw [List.filter_singleton, hm, cond_true, List.map_singleton,
        serialize_stored _ _ (by rw [akeys_lessonToDoc]; decide)]
  · have hitems : (list_quizzes none (create_quiz p s).2).items
        = ((getColl s "quiz" ++ [("_id", Value.vOid s.nextId) :: quizToDoc p]).map
            serialize) := by
      show (((getColl (create_document s "quiz" (quizToDoc p)).2 "quiz").filter
              (matchesFilter [])).map serialize) = _
      rw [filter_matchesFilter_nil, getColl_create_self]
    rw [hitems, filter_map_serialize _ _ (quizMatches_serialize p),
        List.filter_append, h, List.nil_append]
    have hm : (quizMatches p) (("_id", Value.vOid s.nextId) :: quizToDoc p) = true :=
      quizMatches_stored p _
    rw [List.filter_singleton, hm, cond_true, List.map_singleton,
        serialize_stored _ _ (by rw [akeys_quizToDoc]; decide)]
  · have hitems : (list_flashcards none flashcardsDefaultLimit (create_flashcard p s).2).items
        = ((getColl s "flashcard" ++ [("_id", Value.vOid s.nextId) :: flashcardToDoc p]).map
            serialize) := by
      show ((((getColl (create_document s "flashcard" (flashcardToDoc p)).2
              "flashcard").filter (matchesFilter [])).take flashcardsDefaultLimit).map
              serialize) = _
      rw [filter_matchesFilter_nil, getColl_create_self]
      rw [List.take_of_length_le (by simp; omega)]
    rw [hitems, filter_map_serialize _ _ (flashcardMatches_serialize p),
        List.filter_append, h, List.nil_append]
    have hm : (flashcardMatches p) (("_id", Value.vOid s.nextId) :: flashcardToDoc p) = true :=
      flashcardMatches_stored p _
    rw [List.filter_singleton, hm, cond_true, List.map_singleton,
        serialize_stored _ _ (by rw [akeys_flashcardToDoc]; decide)]

/-- Witness fixture: a one-question quiz payload. -/
def wQuiz : Quiz := ⟨"l1", [[("prompt", Prim.pStr "Q")]]⟩

/-- Witness for the amended C1 at the empty store, all three entities. -/
theorem C1_create_then_list_witness :
    ((getColl (⟨[], 0⟩ : Store) "lesson").filter (lessonMatches wLesson) = []
      ∧ (list_lessons none none (create_lesson wLesson ⟨[], 0⟩).2).items.filter
          (lessonMatches wLesson)
        = [lessonToDoc wLesson ++ [("id", Value.vStr (oidString 0))]])
  ∧ ((getColl (⟨[], 0⟩ : Store) "quiz").filter (quizMatches wQuiz) = []
      ∧ (list_quizzes none (create_quiz wQuiz ⟨[], 0⟩).2).items.filter (quizMatches wQuiz)
        = [quizToDoc wQuiz ++ [("id", Value.vStr (oidString 0))]])
  ∧ ((getColl (⟨[], 0⟩ : Store) "flashcard").filter (flashcardMatches wFlashcard) = []
      ∧ (getColl (⟨[], 0⟩ : Store) "flashcard").length < flashcardsDefaultLimit
      ∧ (list_flashcards none flashcardsDefaultLimit
            (create_flashcard wFlashcard ⟨[], 0⟩).2).items.filter (flashcardMatches wFlashcard)
        = [flashcardToDoc wFlashcard ++ [("id", Value.vStr (oidString 0))]]) :=
  ⟨⟨by decide, (C1_create_then_list.1 wLesson ⟨[], 0⟩ (by decide)).1⟩,
   ⟨by decide, (C1_create_then_list.2.1 wQuiz ⟨[], 0⟩ (by decide)).1⟩,
   ⟨by decide, by decide,
    (C1_create_then_list.2.2 wFlashcard ⟨[], 0⟩ (by decide) (by decide)).1⟩⟩

theorem seedStore_of_nonempty (s : Store)
    (hl : ¬ (getColl s "lesson").length = 0)
    (hf : ¬ (getColl s "flashcard").length = 0) : seedStore s = s := by
  simp only [seedStore]
  rw [if_neg hl, if_neg hf]

theorem lesson_pos_seedStore (s : Store) :
    0 < (getColl (seedStore s) "lesson").length := by
  have hne : ("lesson" : String) ≠ "flashcard" := by decide
  have h2 : seedLessons.length = 2 := rfl
  simp only [seedStore]
  by_cases hA : (getColl s "lesson").length = 0
  · rw [if_pos hA]
    by_cases hB : (getColl (insertDocs s "lesson" seedLessons) "flashcard").length = 0
    · rw [if_pos hB, getColl_insertDocs_ne _ _ hne, length_getColl_insertDocs]
      omega
    · rw [if_neg hB, length_getColl_insertDocs]
      omega
  · rw [if_neg hA]
    by_cases hB : (getColl s "flashcard").length = 0
    · rw [if_pos hB, getColl_insertDocs_ne _ _ hne]
      omega
    · rw [if_neg hB]
      omega

theorem flashcard_pos_seedStore (s : Store) :
    0 < (getColl (seedStore s) "flashcard").length := by
  have h3 : seedFlashcards.length = 3 := rfl
  simp only [seedStore]
  by_cases hB : (getColl (if (getColl s "lesson").length = 0 then
      insertDocs s "lesson" seedLessons else s) "flashcard").length = 0
  · rw [if_pos hB, length_getColl_insertDocs]
    omega
  · rw [if_neg hB]
    omega

theorem seedStore_idem (s : Store) : seedStore (seedStore s) = seedStore s :=
  seedStore_of_nonempty _ (Nat.pos_iff_ne_zero.1 (lesson_pos_seedStore s))
    (Nat.pos_iff_ne_zero.1 (flashcard_pos_seedStore s))

/-- Claim C3: seeding is idempotent.  The route is idempotent as a state
transformer, and one seeding adds at most the fixed demo-record counts
(2 lessons, 3 flashcards) to the respective collections. -/
theorem C3_seed_idempotent :
    (∀ s : Store, seedStore (seedStore s) = seedStore s)
  ∧ (∀ (st st₁ : AppState) (r : Except HTTPError Doc),
      seed_demo st = (r, st₁) → seed_demo st₁ = (r, st₁))
  ∧ (∀ s : Store,
      (getColl (seedStore s) "lesson").length ≤ (getColl s "lesson").length + 2
      ∧ (getColl (seedStore s) "flashcard").length ≤ (getColl s "flashcard").length + 3) := by
  refine ⟨seedStore_idem, ?_, ?_⟩
  · intro st st₁ r h
    cases st with
    | mk db url =>
        cases db with
        | none =>
            simp only [seed_demo] at h ⊢
            injection h with h1 h2
            subst h1
            rw [← h2]
        | some conn =>
            simp only [seed_demo] at h ⊢
            injection h with h1 h2
            subst h1
            rw [← h2]
            simp only [seed_demo, seedStore_idem]
  · intro s
    have hne : ("lesson" : String) ≠ "flashcard" := by decide
    have h2 : seedLessons.length = 2 := rfl
    have h3 : seedFlashcards.length = 3 := rfl
    constructor
    · simp only [seedStore]
      by_cases hA : (getColl s "lesson").length = 0
      · rw [if_pos hA]
        by_cases hB : (getColl (insertDocs s "lesson" seedLessons) "flashcard").length = 0
        · rw [if_pos hB, getColl_insertDocs_ne _ _ hne, length_getColl_insertDocs]
          omega
        · rw [if_neg hB, length_getColl_insertDocs]
          omega
      · rw [if_neg hA]
        by_cases hB : (getColl s "flashcard").length = 0
        · rw [if_pos hB, getColl_insertDocs_ne _ _ hne]
          omega
        · rw [if_neg hB]
          omega
    · simp only [seedStore]
      by_cases hA : (getColl s "lesson").length = 0
      · rw [if_pos hA]
        by_cases hB : (getColl (insertDocs s "lesson" seedLessons) "flashcard").length = 0
        · rw [if_pos hB, length_getColl_insertDocs,
              getColl_insertDocs_ne _ _ (by decide : ("flashcard" : String) ≠ "lesson")]
          omega
        · rw [if_neg hB,
              getColl_insertDocs_ne _ _ (by decide : ("flashcard" : String) ≠ "lesson")]
          omega
      · rw [if_neg hA]
        by_cases hB : (getColl s "flashcard").length = 0
        · rw [if_pos hB, length_getColl_insertDocs]
          omega
        · rw [if_neg hB]
          omega

/-- Witness fixture: an app state with an available store, initially empty. -/
def wApp : AppState := ⟨some ⟨⟨[], 0⟩, none, .ok []⟩, none⟩

/-- Witness for C3: re-seeding the state produced by one seeding changes
nothing. -/
theorem C3_seed_idempotent_witness :
    seed_demo (seed_demo wApp).2 = ((seed_demo wApp).1, (seed_demo wApp).2) :=
  C3_seed_idempotent.2.1 wApp (seed_demo wApp).2 (seed_demo wApp).1 rfl

/-- Witness fixture: progress payload `{user_id: "u1", streak_days: 7}`. -/
def wProgress7 : ProgressUpdate := ⟨"u1", none, none, none, some 7, none⟩

/-- Witness fixture: progress payload `{user_id: "u1", streak_days: 3}`. -/
def wProgress3 : ProgressUpdate := ⟨"u1", none, none, none, some 3, none⟩

/-- The stripped document stored for `{user_id: "u1", streak_days: 3}`. -/
def wStripped3 : Doc := [("user_id", Value.vStr "u1"), ("streak_days", Value.vInt 3)]

/-- Claim C5 counterexample: when a snapshot for "u1" already exists
(streak_days 7), POSTing `{user_id: "u1", streak_days: 3}` and then
retrieving returns the OLD first snapshot, not one with streak_days 3. -/
theorem C5_update_progress_counterexample :
    ¬ alookup (get_progress "u1"
        (update_progress wProgress3 (update_progress wProgress7 ⟨[], 0⟩).2).2)
      "streak_days" = some (Value.vInt 3) := by decide

/-- Claim C5 as amended: POST /progress strips every null field and inserts
only the rest; for a user with no prior stored snapshot, posting
`{user_id: "u1", streak_days: 3}` and retrieving yields exactly the two
submitted fields plus the generated `id` — no omitted field is present. -/
theorem C5_update_progress_strips (s : Store)
    (h : ∀ d ∈ getColl s "progress", alookup d "user_id" ≠ some (Value.vStr "u1")) :
    get_progress "u1" (update_progress wProgress3 s).2
      = wStripped3 ++ [("id", Value.vStr (oidString s.nextId))] := by
  have hcoll : getColl (update_progress wProgress3 s).2 "progress"
      = getColl s "progress" ++ [("_id", Value.vOid s.nextId) :: wStripped3] :=
    getColl_create_self s "progress" wStripped3
  unfold get_progress get_documents
  rw [hcoll, List.filter_append]
  have hold : (getColl s "progress").filter
      (matchesFilter [("user_id", Value.vStr "u1")]) = [] := by
    rw [List.filter_eq_nil_iff]
    intro d hd
    simp only [matchesFilter_singleton]
    exact h d hd
  rw [hold, List.nil_append]
  have hnew : matchesFilter [("user_id", Value.vStr "u1")]
      (("_id", Value.vOid s.nextId) :: wStripped3) = true := by
    rw [matchesFilter_singleton]
    simp [wStripped3, alookup]
  rw [List.filter_singleton, hnew, cond_true]
  simp only [List.take, List.map]
  rw [serialize_stored _ _ (by decide)]

/-- Witness for the amended C5 at the empty store. -/
theorem C5_update_progress_strips_witness :
    (∀ d ∈ getColl ⟨[], 0⟩ "progress",
        alookup d "user_id" ≠ some (Value.vStr "u1"))
    ∧ get_progress "u1" (update_progress wProgress3 ⟨[], 0⟩).2
      = wStripped3 ++ [("id", Value.vStr (oidString 0))] :=
  ⟨by simp [getColl, alookup],
   C5_update_progress_strips ⟨[], 0⟩ (by simp [getColl, alookup])⟩

/-- Claim C6: the /test diagnostic never propagates an error for any store
state: it always answers `ok`; with no connection it reports the degraded
payload, and a store fault inside the handler is rendered into the
`database` status string. -/
theorem C6_test_route_total :
    (∀ st : AppState, (test_database st).isOk = true)
  ∧ (∀ st : AppState, st.db = none →
      test_database st
        = .ok [("backend", Value.vStr "✅ Running"),
               ("database", Value.vStr "⚠️  Available but not initialized"),
               ("database_url", Value.vStr "❌ Not Set"),
               ("database_name", Value.vStr "❌ Not Set"),
               ("connection_status", Value.vStr "Not Connected"),
               ("collections", Value.vStrList [])])
  ∧ (∀ (st : AppState) (conn : DBConn) (e : String),
      st.db = some conn → conn.collNamesResult = .error e →
      ∃ r, test_database st = .ok r
        ∧ alookup r "database"
            = some (Value.vStr ("⚠️  Connected but Error: " ++ e.take 50))) := by
  refine ⟨?_, ?_, ?_⟩
  · intro st
    cases hdb : st.db with
    | none => simp [test_database, hdb, Except.isOk, Except.toBool]
    | some conn =>
        cases hr : conn.collNamesResult <;>
          simp [test_database, hdb, hr, Except.isOk, Except.toBool]
  · intro st h
    simp only [test_database, h]
    rfl
  · intro st conn e h1 h2
    simp only [test_database, h1, h2]
    exact ⟨_, rfl, alookup_aset_self _ _ _⟩

/-- Witness fixture: app state whose connection raises on
`list_collection_names`. -/
def wAppErr : AppState := ⟨some ⟨⟨[], 0⟩, none, .error "boom"⟩, none⟩

/-- Witness for C6 at a disconnected state and at a faulting connection. -/
theorem C6_test_route_total_witness :
    ((⟨none, none⟩ : AppState).db = none
     ∧ test_database ⟨none, none⟩
        = .ok [("backend", Value.vStr "✅ Running"),
               ("database", Value.vStr "⚠️  Available but not initialized"),
               ("database_url", Value.vStr "❌ Not Set"),
               ("database_name", Value.vStr "❌ Not Set"),
               ("connection_status", Value.vStr "Not Connected"),
               ("collections", Value.vStrList [])])
    ∧ ∃ r, test_database wAppErr = .ok r
        ∧ alookup r "database"
            = some (Value.vStr ("⚠️  Connected but Error: " ++ "boom".take 50)) :=
  ⟨⟨rfl, C6_test_route_total.2.1 ⟨none, none⟩ rfl⟩,
   C6_test_route_total.2.2 wAppErr ⟨⟨[], 0⟩, none, .error "boom"⟩ "boom" rfl rfl⟩

theorem reqStr_ok_lookup {body : Doc} {k v : String} (h : reqStr body k = .ok v) :
    alookup body k = some (Value.vStr v) := by
  unfold reqStr at h
  cases hl : alookup body k with
  | none => rw [hl] at h; exact absurd h (by simp)
  | some x => cases x <;> rw [hl] at h <;> simp_all

theorem validateLesson_ok_fields {body : Doc} {p : Lesson}
    (h : validateLesson body = .ok p) :
    (∃ a, reqStr body "language" = .ok a) ∧ (∃ a, reqStr body "title" = .ok a)
    ∧ (∃ a, reqStr body "level" = .ok a) ∧ (∃ a, reqStr body "content" = .ok a) := by
  unfold validateLesson at h
  cases h1 : reqStr body "language" with
  | error e => rw [h1] at h; exact absurd h (by simp [Bind.bind, Except.bind])
  | ok a1 =>
  rw [h1] at h
  cases h2 : reqStr body "title" with
  | error e => rw [h2] at h; exact absurd h (by simp [Bind.bind, Except.bind])
  | ok a2 =>
  rw [h2] at h
  cases h3 : reqStr body "level" with
  | error e => rw [h3] at h; exact absurd h (by simp [Bind.bind, Except.bind])
  | ok a3 =>
  rw [h3] at h
  cases h4 : reqStr body "content" with
  | error e => rw [h4] at h; exact absurd h (by simp [Bind.bind, Except.bind])
  | ok a4 =>
  exact ⟨⟨a1, rfl⟩, ⟨a2, rfl⟩, ⟨a3, rfl⟩, ⟨a4, rfl⟩⟩

theorem validateLesson_error_of_missing {body : Doc}
    (h : alookup body "language" = none ∨ alookup body "title" = none
       ∨ alookup body "level" = none ∨ alookup body "content" = none) :
    ∃ msg, validateLesson body = .error msg := by
  cases hv : validateLesson body with
  | error msg => exact ⟨msg, rfl⟩
  | ok p =>
      exfalso
      obtain ⟨⟨a1, e1⟩, ⟨a2, e2⟩, ⟨a3, e3⟩, ⟨a4, e4⟩⟩ := validateLesson_ok_fields hv
      rcases h with h | h | h | h
      · rw [reqStr_ok_lookup e1] at h; exact Option.noConfusion h
      · rw [reqStr_ok_lookup e2] at h; exact Option.noConfusion h
      · rw [reqStr_ok_lookup e3] at h; exact Option.noConfusion h
      · rw [reqStr_ok_lookup e4] at h; exact Option.noConfusion h


/-- Pydantic validation of an optional string field (`Optional[str] = None`):
absent or `null` is `None`, a string passes through. -/
def optStrOrNull (body : Doc) (k : String) : Except String (Option String) :=
  match alookup body k with
  | some (.vStr s) => .ok (some s)
  | some .vNull => .ok none
  | some _ => .error (k ++ ": input should be a valid string")
  | none => .ok none

/-- Pydantic validation of an optional float field (`Optional[float] = None`):
absent or `null` is `None`; an integer coerces to a float. -/
def optNumOrNull (body : Doc) (k : String) : Except String (Option Rat) :=
  match alookup body k with
  | some (.vNum q) => .ok (some q)
  | some (.vInt n) => .ok (some (n : Rat))
  | some .vNull => .ok none
  | some _ => .error (k ++ ": input should be a valid number")
  | none => .ok none

/-- Pydantic validation of an optional boolean field (`Optional[bool] = None`). -/
def optBoolOrNull (body : Doc) (k : String) : Except String (Option Bool) :=
  match alookup body k with
  | some (.vBool b) => .ok (some b)
  | some .vNull => .ok none
  | some _ => .error (k ++ ": input should be a valid boolean")
  | none => .ok none

/-- Pydantic validation of an optional integer field (`Optional[int] = None`). -/
def optIntOrNull (body : Doc) (k : String) : Except String (Option Int) :=
  match alookup body k with
  | some (.vInt n) => .ok (some n)
  | some .vNull => .ok none
  | some _ => .error (k ++ ": input should be a valid integer")
  | none => .ok none

/-- Pydantic validation of the optional list-of-question-maps field
`questions` (default `[]`). -/
def optQuestions (body : Doc) (k : String) : Except String (List Question) :=
  match alookup body k with
  | some (.vDocs ds) => .ok ds
  | some _ => .error (k ++ ": input should be a valid list")
  | none => .ok []

/-- Pydantic validation of an incoming `Quiz` body (src/schemas.py lines
18-23): `lesson_id` a required string, `questions` an optional list of maps
defaulting to `[]`. -/
def validateQuiz (body : Doc) : Except String Quiz := do
  let lesson_id ← reqStr body "lesson_id"
  let questions ← optQuestions body "questions"
  pure ⟨lesson_id, questions⟩

/-- Pydantic validation of an incoming `Flashcard` body (src/schemas.py lines
25-29): language/term/definition required strings, `example` an optional
string defaulting to `None`. -/
def validateFlashcard (body : Doc) : Except String Flashcard := do
  let language ← reqStr body "language"
  let term ← reqStr body "term"
  let definition ← reqStr body "definition"
  let ex ← optStrOrNull body "example"
  pure ⟨language, term, definition, ex⟩

/-- Pydantic validation of an incoming `ProgressUpdate` body (src/main.py
lines 161-167): `user_id` a required string, the five remaining fields
optional with default `None`. -/
def validateProgressUpdate (body : Doc) : Except String ProgressUpdate := do
  let user_id ← reqStr body "user_id"
  let lesson_id ← optStrOrNull body "lesson_id"
  let quiz_score ← optNumOrNull body "quiz_score"
  let completed ← optBoolOrNull body "completed"
  let streak_days ← optIntOrNull body "streak_days"
  let studied_flashcards ← optIntOrNull body "studied_flashcards"
  pure ⟨user_id, lesson_id, quiz_score, completed, streak_days, studied_flashcards⟩

/-- The HTTP layer around `create_quiz`: FastAPI validates the raw body
against the `Quiz` schema before the handler runs; a validation failure is
answered with a 422 client error and the handler never executes. -/
def post_quizzes_route (body : Doc) (s : Store) : Except HTTPError Doc × Store :=
  match validateQuiz body with
  | .error msg => (.error ⟨422, msg⟩, s)
  | .ok payload =>
      let r := create_quiz payload s
      (.ok r.1, r.2)

/-- The HTTP layer around `create_flashcard`, analogous to the other create
routes. -/
def post_flashcards_route (body : Doc) (s : Store) : Except HTTPError Doc × Store :=
  match validateFlashcard body with
  | .error msg => (.error ⟨422, msg⟩, s)
  | .ok payload =>
      let r := create_flashcard payload s
      (.ok r.1, r.2)

/-- The HTTP layer around `update_progress`, analogous to the other create
routes. -/
def post_progress_route (body : Doc) (s : Store) : Except HTTPError Doc × Store :=
  match validateProgressUpdate body with
  | .error msg => (.error ⟨422, msg⟩, s)
  | .ok payload =>
      let r := update_progress payload s
      (.ok r.1, r.2)

theorem validateQuiz_ok_fields {body : Doc} {p : Quiz}
    (h : validateQuiz body = .ok p) : ∃ a, reqStr body "lesson_id" = .ok a := by
  unfold validateQuiz at h
  cases h1 : reqStr body "lesson_id" with
  | error e => rw [h1] at h; exact absurd h (by simp [Bind.bind, Except.bind])
  | ok a => exact ⟨a, rfl⟩

theorem validateFlashcard_ok_fields {body : Doc} {p : Flashcard}
    (h : validateFlashcard body = .ok p) :
    (∃ a, reqStr body "language" = .ok a) ∧ (∃ a, reqStr body "term" = .ok a)
    ∧ (∃ a, reqStr body "definition" = .ok a) := by
  unfold validateFlashcard at h
  cases h1 : reqStr body "language" with
  | error e => rw [h1] at h; exact absurd h (by simp [Bind.bind, Except.bind])
  | ok a1 =>
  rw [h1] at h
  cases h2 : reqStr body "term" with
  | error e => rw [h2] at h; exact absurd h (by simp [Bind.bind, Except.bind])
  | ok a2 =>
  rw [h2] at h
  cases h3 : reqStr body "definition" with
  | error e => rw [h3] at h; exact absurd h (by simp [Bind.bind, Except.bind])
  | ok a3 =>
  exact ⟨⟨a1, rfl⟩, ⟨a2, rfl⟩, ⟨a3, rfl⟩⟩

theorem validateProgressUpdate_ok_fields {body : Doc} {p : ProgressUpdate}
    (h : validateProgressUpdate body = .ok p) :
    ∃ a, reqStr body "user_id" = .ok a := by
  unfold validateProgressUpdate at h
  cases h1 : reqStr body "user_id" with
  | error e => rw [h1] at h; exact absurd h (by simp [Bind.bind, Except.bind])
  | ok a => exact ⟨a, rfl⟩

theorem validateQuiz_error_of_missing {body : Doc}
    (h : alookup body "lesson_id" = none) :
    ∃ msg, validateQuiz body = .error msg := by
  cases hv : validateQuiz body with
  | error msg => exact ⟨msg, rfl⟩
  | ok p =>
      exfalso
      obtain ⟨a, e1⟩ := validateQuiz_ok_fields hv
      rw [reqStr_ok_lookup e1] at h
      exact Option.noConfusion h

theorem validateFlashcard_error_of_missing {body : Doc}
    (h : alookup body "language" = none ∨ alookup body "term" = none
       ∨ alookup body "definition" = none) :
    ∃ msg, validateFlashcard body = .error msg := by
  cases hv : validateFlashcard body with
  | error msg => exact ⟨msg, rfl⟩
  | ok p =>
      exfalso
      obtain ⟨⟨a1, e1⟩, ⟨a2, e2⟩, ⟨a3, e3⟩⟩ := validateFlashcard_ok_fields hv
      rcases h with h | h | h
      · rw [reqStr_ok_lookup e1] at h; exact Option.noConfusion h
      · rw [reqStr_ok_lookup e2] at h; exact Option.noConfusion h
      · rw [reqStr_ok_lookup e3] at h; exact Option.noConfusion h

theorem validateProgressUpdate_error_of_missing {body : Doc}
    (h : alookup body "user_id" = none) :
    ∃ msg, validateProgressUpdate body = .error msg := by
  cases hv : validateProgressUpdate body with
  | error msg => exact ⟨msg, rfl⟩
  | ok p =>
      exfalso
      obtain ⟨a, e1⟩ := validateProgressUpdate_ok_fields hv
      rw [reqStr_ok_lookup e1] at h
      exact Option.noConfusion h

/-- Claim C7: every create route (lessons, quizzes, flashcards, progress)
answers a request body missing a required schema field with a 4xx validation
error and leaves the store unchanged. -/
theorem C7_validation_rejects :
    (∀ (body : Doc) (s : Store),
        (alookup body "language" = none ∨ alookup body "title" = none
          ∨ alookup body "level" = none ∨ alookup body "content" = none) →
        (post_lessons_route body s).2 = s
        ∧ ∃ e, (post_lessons_route body s).1 = .error e
            ∧ 400 ≤ e.status ∧ e.status < 500)
  ∧ (∀ (body : Doc) (s : Store), alookup body "lesson_id" = none →
        (post_quizzes_route body s).2 = s
        ∧ ∃ e, (post_quizzes_route body s).1 = .error e
            ∧ 400 ≤ e.status ∧ e.status < 500)
  ∧ (∀ (body : Doc) (s : Store),
        (alookup body "language" = none ∨ alookup body "term" = none
          ∨ alookup body "definition" = none) →
        (post_flashcards_route body s).2 = s
        ∧ ∃ e, (post_flashcards_route body s).1 = .error e
            ∧ 400 ≤ e.status ∧ e.status < 500)
  ∧ (∀ (body : Doc) (s : Store), alookup body "user_id" = none →
        (post_progress_route body s).2 = s
        ∧ ∃ e, (post_progress_route body s).1 = .error e
            ∧ 400 ≤ e.status ∧ e.status < 500) := by
  refine ⟨?_, ?_, ?_, ?_⟩
  · intro body s h
    obtain ⟨msg, hv⟩ := validateLesson_error_of_missing h
    exact ⟨by simp [post_lessons_route, hv],
           ⟨422, msg⟩, by simp [post_lessons_route, hv], by simp, by simp⟩
  · intro body s h
    obtain ⟨msg, hv⟩ := validateQuiz_error_of_missing h
    exact ⟨by simp [post_quizzes_route, hv],
           ⟨422, msg⟩, by simp [post_quizzes_route, hv], by simp, by simp⟩
  · intro body s h
    obtain ⟨msg, hv⟩ := validateFlashcard_error_of_missing h
    exact ⟨by simp [post_flashcards_route, hv],
           ⟨422, msg⟩, by simp [post_flashcards_route, hv], by simp, by simp⟩
  · intro body s h
    obtain ⟨msg, hv⟩ := validateProgressUpdate_error_of_missing h
    exact ⟨by simp [post_progress_route, hv],
           ⟨422, msg⟩, by simp [post_progress_route, hv], by simp, by simp⟩

/-- Witness fixture: a Lesson body missing the required `title`. -/
def wBodyNoTitle : Doc := [("language", Value.vStr "Spanish")]

/-- Witness fixture: a Flashcard body missing the required `term` and
`definition`. -/
def wBodyNoTerm : Doc := [("language", Value.vStr "Spanish")]

/-- Witness for C7: concrete invalid bodies against all four create routes
at the empty store. -/
theorem C7_validation_rejects_witness :
    (alookup wBodyNoTitle "title" = none
     ∧ (post_lessons_route wBodyNoTitle ⟨[], 0⟩).2 = ⟨[], 0⟩
     ∧ ∃ e, (post_lessons_route wBodyNoTitle ⟨[], 0⟩).1 = .error e
         ∧ 400 ≤ e.status ∧ e.status < 500)
  ∧ (alookup ([] : Doc) "lesson_id" = none
     ∧ (post_quizzes_route [] ⟨[], 0⟩).2 = ⟨[], 0⟩
     ∧ ∃ e, (post_quizzes_route [] ⟨[], 0⟩).1 = .error e
         ∧ 400 ≤ e.status ∧ e.status < 500)
  ∧ (alookup wBodyNoTerm "term" = none
     ∧ (post_flashcards_route wBodyNoTerm ⟨[], 0⟩).2 = ⟨[], 0⟩
     ∧ ∃ e, (post_flashcards_route wBodyNoTerm ⟨[], 0⟩).1 = .error e
         ∧ 400 ≤ e.status ∧ e.status < 500)
  ∧ (alookup ([] : Doc) "user_id" = none
     ∧ (post_progress_route [] ⟨[], 0⟩).2 = ⟨[], 0⟩
     ∧ ∃ e, (post_progress_route [] ⟨[], 0⟩).1 = .error e
         ∧ 400 ≤ e.status ∧ e.status < 500) :=
  ⟨⟨by decide,
    (C7_validation_rejects.1 wBodyNoTitle ⟨[], 0⟩ (Or.inr (Or.inl (by decide)))).1,
    (C7_validation_rejects.1 wBodyNoTitle ⟨[], 0⟩ (Or.inr (Or.inl (by decide)))).2⟩,
   ⟨by decide,
    (C7_validation_rejects.2.1 [] ⟨[], 0⟩ (by decide)).1,
    (C7_validation_rejects.2.1 [] ⟨[], 0⟩ (by decide)).2⟩,
   ⟨by decide,
    (C7_validation_rejects.2.2.1 wBodyNoTerm ⟨[], 0⟩ (Or.inr (Or.inl (by decide)))).1,
    (C7_validation_rejects.2.2.1 wBodyNoTerm ⟨[], 0⟩ (Or.inr (Or.inl (by decide)))).2⟩,
   ⟨by decide,
    (C7_validation_rejects.2.2.2 [] ⟨[], 0⟩ (by decide)).1,
    (C7_validation_rejects.2.2.2 [] ⟨[], 0⟩ (by decide)).2⟩⟩
